import Mathlib

/-!
Verification development for the `passport-amazon-token` strategy
(`src/lib/Strategy.js`, plus the legacy copy `src/unnamed/part_000`).

The JavaScript code is shallowly embedded: JavaScript values flowing through
the strategy are modelled by the inductive `JSValue`; JavaScript truthiness,
`&&`/`||` short-circuiting, property reads and property writes are modelled
by `truthy`, `jsAnd`, `jsOr`, `jsGet` and `jsSet`.  The external collaborators
(the OAuth2 HTTP client and `JSON.parse` of the standard library) are passed
in as parameters, exactly as the strategy receives them through callbacks.
-/

/-- A JavaScript value, as far as this strategy manipulates them:
`undefined`, `null`, booleans, (integer) numbers, strings, arrays and
plain objects given as association lists of own properties. -/
inductive JSValue : Type where
  | undef : JSValue
  | null : JSValue
  | bool (b : Bool) : JSValue
  | num (n : Int) : JSValue
  | str (s : String) : JSValue
  | arr (elems : List JSValue) : JSValue
  | obj (fields : List (String × JSValue)) : JSValue

namespace JSValue

/-- JavaScript truthiness: `undefined`, `null`, `false`, `0` and `""` are
falsy; every other value (in particular every object and array) is truthy. -/
def truthy : JSValue → Bool
  | undef => false
  | null => false
  | bool b => b
  | num n => n != 0
  | str s => s != ""
  | arr _ => true
  | obj _ => true

/-- JavaScript `a && b`: if `a` is falsy the result is `a`, otherwise `b`. -/
def jsAnd (a b : JSValue) : JSValue := if a.truthy then b else a

/-- JavaScript `a || b`: if `a` is truthy the result is `a`, otherwise `b`. -/
def jsOr (a b : JSValue) : JSValue := if a.truthy then a else b

/-- First binding of key `k` in an association list of object fields. -/
def lookupField : List (String × JSValue) → String → Option JSValue
  | [], _ => none
  | (k', v) :: rest, k => if k' = k then some v else lookupField rest k

/-- JavaScript property read `v.k` in the situations the strategy performs
it on a non-nullish receiver: a missing property on an object reads as
`undefined`, and a property read on a primitive or array receiver used by
this code also reads as `undefined`. (Reads on `null`/`undefined` throw;
the call sites guard for that explicitly.) -/
def jsGet (v : JSValue) (k : String) : JSValue :=
  match v with
  | obj fields => (lookupField fields k).getD undef
  | _ => undef

/-- JavaScript property write `v[k] = x` as used by the code: on an object
it updates the first binding of `k` (or appends one); on any other
non-nullish receiver the sloppy-mode write is silently ignored.
(Writes on `null`/`undefined` throw; the call site guards for that.) -/
def jsSet (v : JSValue) (k : String) (x : JSValue) : JSValue :=
  match v with
  | obj fields => obj (setField fields k x)
  | other => other
where
  /-- Update the first binding of `k`, or append one. -/
  setField : List (String × JSValue) → String → JSValue → List (String × JSValue)
  | [], k, x => [(k, x)]
  | (k', v') :: rest, k, x =>
      if k' = k then (k, x) :: rest else (k', v') :: setField rest k x

/-- Nullish check: `null` and `undefined` are the receivers on which
property access throws a `TypeError`. -/
def isNullish : JSValue → Bool
  | undef => true
  | null => true
  | _ => false

end JSValue

/-- JavaScript string coercion `String(v)`, as applied by `JSON.parse` to a
non-string argument before parsing it (`JSON.parse(error.data)` coerces
`error.data` to a string first). -/
def jsToString : JSValue → String
  | .undef => "undefined"
  | .null => "null"
  | .bool b => if b then "true" else "false"
  | .num n => toString n
  | .str s => s
  | .arr elems => joinElems elems
  | .obj _ => "[object Object]"
where
  /-- Array-to-string coercion: elements joined by commas. -/
  joinElems : List JSValue → String
  | [] => ""
  | [x] => jsToString x
  | x :: rest => jsToString x ++ "," ++ joinElems rest

/-- The `name: {familyName, givenName}` sub-object of a normalized profile. -/
structure ProfileName where
  familyName : JSValue
  givenName : JSValue

/-- The normalized profile object built by
`AmazonTokenStrategy.prototype.userProfile`. -/
structure Profile where
  provider : JSValue
  id : JSValue
  displayName : JSValue
  name : ProfileName
  emails : JSValue
  photos : JSValue
  _raw : String
  _json : JSValue

/-- The `InternalOAuthError(message, err)` object from `passport-oauth`:
it stores its two constructor arguments. -/
def InternalOAuthError (message oauthError : JSValue) : JSValue :=
  .obj [("name", .str "InternalOAuthError"),
        ("message", message), ("oauthError", oauthError)]

/-- The exception thrown by `JSON.parse` on input it cannot parse
(after string coercion of the argument). -/
def jsonParseError (input : String) : JSValue :=
  .obj [("name", .str "SyntaxError"), ("message", .str input)]

/-- The exception thrown by a property access or property write on a
nullish receiver. -/
def jsTypeError (msg : String) : JSValue :=
  .obj [("name", .str "TypeError"), ("message", .str msg)]

/-- Result handed to the `done` continuation of `userProfile`
(and to the callback of `_loadUserProfile`): `done(e)` or `done(null, profile)`. -/
inductive DoneResult where
  | err (e : JSValue)
  | ok (profile : Profile)

open JSValue in
/-- Profile normalization of `src/lib/Strategy.js` (lines 99-118): the parsed
body is mutated by `json['id'] = json.user_id`, then the profile literal is
built from it. -/
def normalizeProfile (body : String) (json0 : JSValue) : Profile :=
  let json := jsSet json0 "id" (jsGet json0 "user_id")
  { provider := .str "amazon"
    id := jsGet json "id"
    displayName := jsGet json "name"
    name := { familyName := .str "", givenName := .str "" }
    emails := .arr [.obj [("value", jsGet json "email")]]
    photos := .arr []
    _raw := body
    _json := json }

open JSValue in
/-- `AmazonTokenStrategy.prototype.userProfile` of `src/lib/Strategy.js`:
the body of the callback passed to `this._oauth2.get`, as a function of the
callback's `(error, body)` arguments.  `JSON.parse` is an external
collaborator and is passed in as `parse : String → Option JSValue`
(`none` models a thrown `SyntaxError`); `JSON.parse` coerces a non-string
argument to a string, hence `jsToString` on `error.data`.  A successful
parse yielding `null` makes the subsequent property accesses throw a
`TypeError`, which the surrounding `try` converts to `done(e)` (error
branch) or `done(e)` with the caught exception (success branch). -/
def userProfile (parse : String → Option JSValue)
    (error : JSValue) (body : String) : DoneResult :=
  if error.truthy then
    match parse (jsToString (jsGet error "data")) with
    | none => .err (InternalOAuthError (.str "Failed to fetch user profile") error)
    | some errorJSON =>
      if errorJSON.isNullish then
        .err (InternalOAuthError (.str "Failed to fetch user profile") error)
      else
        .err (InternalOAuthError (jsGet errorJSON "error_description")
                                 (jsGet errorJSON "error"))
  else
    match parse body with
    | none => .err (jsonParseError body)
    | some json0 =>
      if json0.isNullish then
        .err (jsTypeError "Cannot read properties of null")
      else
        .ok (normalizeProfile body json0)

open JSValue in
/-- Profile normalization of the legacy copy `src/unnamed/part_000`
(lines 90-105): no `user_id` overwrite; `displayName`, `name.familyName`,
`name.givenName`, `emails` and `photos[0].value` all carry `|| ''` /
`|| []` style defaults. -/
def normalizeProfile000 (body : String) (json : JSValue) : Profile :=
  { provider := .str "amazon"
    id := jsGet json "id"
    displayName := jsOr (jsGet json "displayName") (.str "")
    name := { familyName := jsOr (jsAnd (jsGet json "name")
                                        (jsGet (jsGet json "name") "familyName"))
                                 (.str "")
              givenName := jsOr (jsAnd (jsGet json "name")
                                       (jsGet (jsGet json "name") "givenName"))
                                (.str "") }
    emails := jsOr (jsGet json "emails") (.arr [])
    photos := .arr [.obj [("value", jsOr (jsAnd (jsGet json "image")
                                                (jsGet (jsGet json "image") "url"))
                                         (.str ""))]]
    _raw := body
    _json := json }

open JSValue in
/-- `AmazonTokenStrategy.prototype.userProfile` of the legacy copy
`src/unnamed/part_000`: every transport error is wrapped generically
(no two-tier classification), and the success path has no `user_id`
overwrite. -/
def userProfile000 (parse : String → Option JSValue)
    (error : JSValue) (body : String) : DoneResult :=
  if error.truthy then
    .err (InternalOAuthError (.str "Failed to fetch user profile") error)
  else
    match parse body with
    | none => .err (jsonParseError body)
    | some json =>
      if json.isNullish then
        .err (jsTypeError "Cannot read properties of null")
      else
        .ok (normalizeProfile000 body json)

/-- An incoming request, duck-typed: `body`, `query` and `headers` may each
be any JavaScript value (in particular `undefined`), exactly as
`authenticate` guards for with `req.body && req.body.access_token`. -/
structure Request where
  body : JSValue
  query : JSValue
  headers : JSValue

open JSValue in
/-- Token extraction of `authenticate` (`src/lib/Strategy.js` lines 57-58):
`(req.body && req.body.f) || (req.query && req.query.f) || (req.headers && req.headers.f)`. -/
def tokenFromReq (req : Request) (field : String) : JSValue :=
  jsOr (jsOr (jsAnd req.body (jsGet req.body field))
             (jsAnd req.query (jsGet req.query field)))
       (jsAnd req.headers (jsGet req.headers field))

/-- Observable actions of one `authenticate` call, in order: the profile
fetch kicked off via `_loadUserProfile`, the invocation of the
application's verify callback, and the three outcome callbacks
`success` / `fail` / `error` inherited from the base strategy. -/
inductive Event where
  | fetchProfile (accessToken : JSValue)
  | callVerify (passedReq : Bool) (accessToken refreshToken : JSValue) (profile : Profile)
  | success (user info : JSValue)
  | fail (info : JSValue)
  | error (err : JSValue)

/-- An event is an outcome callback (`success`, `fail` or `error`). -/
def Event.isOutcome : Event → Bool
  | .success _ _ => true
  | .fail _ => true
  | .error _ => true
  | _ => false

/-- The inner `verified(error, user, info)` continuation of `authenticate`
(`src/lib/Strategy.js` lines 67-72), returning the outcome callback it
invokes. -/
def verified (error user info : JSValue) : Event :=
  if error.truthy then .error error
  else if !user.truthy then .fail info
  else .success user info

/-- `AmazonTokenStrategy.prototype.authenticate` (`src/lib/Strategy.js`
lines 55-80), as the trace of observable events of one call.  The two
external collaborators are parameters: `load` is `_loadUserProfile`
(its callback receives `(error, profile)`, modelled by `DoneResult`), and
`verify` is the application's verify callback, modelled by the argument
triple `(error, user, info)` it passes to its `verified` continuation;
`verify` receives `some req` exactly when `passReqToCallback` is set. -/
def authenticate
    (load : JSValue → DoneResult)
    (verify : Option Request → JSValue → JSValue → Profile → JSValue × JSValue × JSValue)
    (passReqToCallback : Bool) (req : Request) : List Event :=
  let accessToken := tokenFromReq req "access_token"
  let refreshToken := tokenFromReq req "refresh_token"
  if !accessToken.truthy then
    [.fail (.obj [("message", .str "You should provide access_token")])]
  else
    .fetchProfile accessToken ::
      match load accessToken with
      | .err e => [.error e]
      | .ok profile =>
        .callVerify passReqToCallback accessToken refreshToken profile ::
          (let r := verify (if passReqToCallback then some req else none)
                           accessToken refreshToken profile
           [verified r.1 r.2.1 r.2.2])

example : JSValue.truthy (.str "x") = true := by decide
example : JSValue.jsGet (.obj [("a", .num 1)]) "b" = .undef := rfl
example : JSValue.jsSet (.obj [("a", .num 1)]) "a" (.num 2)
    = .obj [("a", .num 2)] := rfl

/-! Helper lemmas about the JavaScript value model. -/

theorem JSValue.truthy_jsOr (a b : JSValue) :
    (a.jsOr b).truthy = (a.truthy || b.truthy) := by
  unfold jsOr; split <;> simp_all

theorem JSValue.lookupField_setField_self (l : List (String × JSValue))
    (k : String) (x : JSValue) :
    JSValue.lookupField (JSValue.jsSet.setField l k x) k = some x := by
  induction l with
  | nil => simp [jsSet.setField, lookupField]
  | cons hd tl ih =>
    rcases hd with ⟨k₀, v₀⟩
    by_cases h : k₀ = k
    · subst h; simp [jsSet.setField, lookupField]
    · simp [jsSet.setField, lookupField, h, ih]

theorem JSValue.lookupField_setField_ne (l : List (String × JSValue))
    (k k' : String) (x : JSValue) (hne : k' ≠ k) :
    JSValue.lookupField (JSValue.jsSet.setField l k x) k'
      = JSValue.lookupField l k' := by
  have hkk : ¬ (k = k') := fun hh => hne hh.symm
  induction l with
  | nil => simp [jsSet.setField, lookupField, hkk]
  | cons hd tl ih =>
    rcases hd with ⟨k₀, v₀⟩
    by_cases h : k₀ = k
    · subst h; simp [jsSet.setField, lookupField, hkk]
    · simp [jsSet.setField, lookupField, h, ih]

theorem JSValue.jsGet_jsSet_self (fields : List (String × JSValue))
    (k : String) (x : JSValue) :
    ((JSValue.obj fields).jsSet k x).jsGet k = x := by
  simp [jsSet, jsGet, lookupField_setField_self]

theorem JSValue.jsGet_jsSet_ne (fields : List (String × JSValue))
    (k k' : String) (x : JSValue) (hne : k' ≠ k) :
    ((JSValue.obj fields).jsSet k x).jsGet k' = (JSValue.obj fields).jsGet k' := by
  simp [jsSet, jsGet, lookupField_setField_ne _ _ _ _ hne]

theorem JSValue.jsGet_of_lookupField_none (fields : List (String × JSValue))
    (k : String) (h : JSValue.lookupField fields k = none) :
    (JSValue.obj fields).jsGet k = .undef := by
  simp [jsGet, h]

/-- The `verified` continuation always lands in an outcome callback. -/
theorem Event.isOutcome_verified (e u i : JSValue) :
    (verified e u i).isOutcome = true := by
  unfold verified
  split
  · rfl
  · split <;> rfl

/-- Filtering a three-event trace whose first two events are not outcomes
and whose last is keeps exactly one event. -/
theorem Event.filter_triple_outcome (a b c : Event)
    (ha : a.isOutcome = false) (hb : b.isOutcome = false)
    (hc : c.isOutcome = true) :
    (([a, b, c]).filter Event.isOutcome).length = 1 := by
  simp [List.filter_cons, ha, hb, hc]

/-! Claim theorems. -/

/-- C1. Every `authenticate` call produces exactly one outcome callback
(`success`, `fail` or `error`): on every control path — missing token,
profile-load error (transport failure or parse failure), verify-callback
error, rejection, acceptance — the event trace contains exactly one
outcome event, for every load result, every verify callback, both
`passReqToCallback` modes and every request. -/
theorem authenticate_exactly_one_outcome
    (load : JSValue → DoneResult)
    (verify : Option Request → JSValue → JSValue → Profile → JSValue × JSValue × JSValue)
    (passReqToCallback : Bool) (req : Request) :
    ((authenticate load verify passReqToCallback req).filter Event.isOutcome).length
      = 1 := by
  unfold authenticate
  by_cases h : (tokenFromReq req "access_token").truthy
  · simp only [h, Bool.not_true, Bool.false_eq_true, if_false]
    cases load (tokenFromReq req "access_token") with
    | err e => simp [List.filter, Event.isOutcome]
    | ok profile =>
      exact Event.filter_triple_outcome _ _ _ rfl rfl (Event.isOutcome_verified _ _ _)
  · simp only [Bool.not_eq_true] at h
    simp [h, List.filter, Event.isOutcome]

/-- C6. The `verified(error, user, info)` continuation dispatches by cases:
a truthy `error` yields `error(err)`; otherwise a falsy `user` yields
`fail(info)`; otherwise `success(user, info)`. -/
theorem verified_dispatch (e u i : JSValue) :
    (e.truthy = true → verified e u i = .error e)
    ∧ (e.truthy = false → u.truthy = false → verified e u i = .fail i)
    ∧ (e.truthy = false → u.truthy = true → verified e u i = .success u i) := by
  refine ⟨fun he => ?_, fun he hu => ?_, fun he hu => ?_⟩ <;>
    simp [verified, he] <;> simp [hu]

/-- Witness for C6: the three dispatch cases, each at the concrete inputs
from the spec's examples. -/
theorem verified_dispatch_witness :
    verified (.str "boom") .undef .undef = .error (.str "boom")
    ∧ verified .null (.bool false) (.obj [("message", .str "rejected")])
        = .fail (.obj [("message", .str "rejected")])
    ∧ verified .null (.obj [("id", .num 1)]) (.obj [("scope", .str "all")])
        = .success (.obj [("id", .num 1)]) (.obj [("scope", .str "all")]) :=
  ⟨(verified_dispatch (.str "boom") .undef .undef).1 rfl,
   (verified_dispatch .null (.bool false) (.obj [("message", .str "rejected")])).2.1 rfl rfl,
   (verified_dispatch .null (.obj [("id", .num 1)]) (.obj [("scope", .str "all")])).2.2 rfl rfl⟩

/-- C2. When body, query and headers all lack a non-empty (truthy)
`access_token` field, the whole trace of `authenticate` is the single
event `fail({message: "You should provide access_token"})` — in
particular no profile fetch, no verify-callback invocation, no `success`
and no `error` occur, and the result does not depend on the profile
loader or on the verify callback. -/
theorem authenticate_missing_token (req : Request)
    (hb : (req.body.jsAnd (req.body.jsGet "access_token")).truthy = false)
    (hq : (req.query.jsAnd (req.query.jsGet "access_token")).truthy = false)
    (hh : (req.headers.jsAnd (req.headers.jsGet "access_token")).truthy = false) :
    ∀ (load : JSValue → DoneResult)
      (verify : Option Request → JSValue → JSValue → Profile → JSValue × JSValue × JSValue)
      (passReqToCallback : Bool),
      authenticate load verify passReqToCallback req
        = [.fail (.obj [("message", .str "You should provide access_token")])] := by
  intro load verify passReqToCallback
  have htok : (tokenFromReq req "access_token").truthy = false := by
    unfold tokenFromReq
    simp [JSValue.truthy_jsOr, hb, hq, hh]
  unfold authenticate
  simp [htok]

/-- Specification-side helper for stating C3: the first non-empty string
among an ordered list of optional candidates. -/
def firstNonEmptyString : List (Option String) → Option String
  | [] => none
  | none :: rest => firstNonEmptyString rest
  | some s :: rest => if s = "" then firstNonEmptyString rest else some s

/-- Candidate value of a token location: a missing field reads as
`undefined`, a string field as that string. -/
def toCand : Option String → JSValue
  | none => JSValue.undef
  | some s => JSValue.str s

/-- Unfolding equation for `toCand`. -/
theorem toCand_eq_getD (o : Option String) :
    toCand o = (o.map JSValue.str).getD JSValue.undef := by
  cases o <;> rfl

/-- Token extraction over three object locations, written as a function
of the three `field` lookups. -/
theorem tokenFromReq_obj (b q h : List (String × JSValue)) (field : String) :
    tokenFromReq ⟨.obj b, .obj q, .obj h⟩ field
      = JSValue.jsOr
          (JSValue.jsOr ((JSValue.lookupField b field).getD .undef)
                        ((JSValue.lookupField q field).getD .undef))
          ((JSValue.lookupField h field).getD .undef) := by
  simp [tokenFromReq, JSValue.jsAnd, JSValue.jsGet, JSValue.truthy]

/-- The `||` chain over three string-or-absent candidates picks the first
non-empty string. -/
theorem jsOr_chain3 (sb sq sh : Option String) (s : String)
    (hs : firstNonEmptyString [sb, sq, sh] = some s) :
    JSValue.jsOr (JSValue.jsOr (toCand sb) (toCand sq)) (toCand sh)
      = .str s := by
  cases sb <;> cases sq <;> cases sh <;>
    simp_all [firstNonEmptyString, toCand, JSValue.jsOr, JSValue.truthy] <;>
  first
  | (rcases hs with ⟨h1, rfl⟩; exact h1)
  | (split_ifs at * <;> simp_all)

/-- C3. Token extraction: (independence) the extracted value of a field
depends only on that field's binding in each of the three locations — in
particular `access_token` and `refresh_token` are extracted independently
of each other; (priority) when the three locations carry string-or-absent
values of the field, the extracted value is the first non-empty string in
the order body, query, headers. -/
theorem token_extraction_priority
    (b q h : List (String × JSValue)) (field : String) :
    (∀ b' q' h',
        JSValue.lookupField b' field = JSValue.lookupField b field →
        JSValue.lookupField q' field = JSValue.lookupField q field →
        JSValue.lookupField h' field = JSValue.lookupField h field →
        tokenFromReq ⟨.obj b', .obj q', .obj h'⟩ field
          = tokenFromReq ⟨.obj b, .obj q, .obj h⟩ field)
    ∧
    (∀ (sb sq sh : Option String),
        JSValue.lookupField b field = Option.map JSValue.str sb →
        JSValue.lookupField q field = Option.map JSValue.str sq →
        JSValue.lookupField h field = Option.map JSValue.str sh →
        ∀ s, firstNonEmptyString [sb, sq, sh] = some s →
          tokenFromReq ⟨.obj b, .obj q, .obj h⟩ field = .str s) := by
  constructor
  · intro b' q' h' hb hq hh
    rw [tokenFromReq_obj, tokenFromReq_obj, hb, hq, hh]
  · intro sb sq sh hb hq hh s hs
    rw [tokenFromReq_obj, hb, hq, hh]
    simp only [← toCand_eq_getD]
    exact jsOr_chain3 sb sq sh s hs

/-- Witness for C3: with `access_token` bound in both body and query, the
body value wins; and adding unrelated fields (including a `refresh_token`
binding in the headers) does not change the extracted `access_token`. -/
theorem token_extraction_priority_witness :
    tokenFromReq ⟨.obj [("access_token", .str "body-token")],
                  .obj [("access_token", .str "query-token")], .obj []⟩
        "access_token" = .str "body-token"
    ∧ tokenFromReq ⟨.obj [("access_token", .str "body-token"), ("other", .num 1)],
                    .obj [("access_token", .str "query-token")],
                    .obj [("refresh_token", .str "zzz")]⟩ "access_token"
        = tokenFromReq ⟨.obj [("access_token", .str "body-token")],
                        .obj [("access_token", .str "query-token")], .obj []⟩
            "access_token" :=
  ⟨(token_extraction_priority [("access_token", .str "body-token")]
        [("access_token", .str "query-token")] [] "access_token").2
      (some "body-token") (some "query-token") none rfl rfl rfl "body-token" rfl,
   (token_extraction_priority [("access_token", .str "body-token")]
        [("access_token", .str "query-token")] [] "access_token").1
      [("access_token", .str "body-token"), ("other", .num 1)]
      [("access_token", .str "query-token")]
      [("refresh_token", .str "zzz")] rfl rfl rfl⟩

/-- C4. For every successfully parsed object response, the normalized
profile's `id` (and the `id` of the mutated `_json`) comes from the
response's `user_id` field; when the response's native `id` differs from
`user_id`, the native value does not appear as the profile's `id`. -/
theorem userProfile_id_from_user_id
    (parse : String → Option JSValue) (body : String)
    (fields : List (String × JSValue))
    (hp : parse body = some (.obj fields)) :
    userProfile parse .undef body = .ok (normalizeProfile body (.obj fields))
    ∧ (normalizeProfile body (.obj fields)).id
        = (JSValue.obj fields).jsGet "user_id"
    ∧ (normalizeProfile body (.obj fields))._json.jsGet "id"
        = (JSValue.obj fields).jsGet "user_id"
    ∧ ((JSValue.obj fields).jsGet "id" ≠ (JSValue.obj fields).jsGet "user_id" →
        (normalizeProfile body (.obj fields)).id ≠ (JSValue.obj fields).jsGet "id") := by
  have hid : (normalizeProfile body (.obj fields)).id
      = (JSValue.obj fields).jsGet "user_id" := by
    simp [normalizeProfile, JSValue.jsGet_jsSet_self]
  refine ⟨?_, hid, ?_, ?_⟩
  · unfold userProfile
    rw [hp]
    rfl
  · simp [normalizeProfile, JSValue.jsGet_jsSet_self]
  · intro hne h
    exact hne (h.symm.trans hid)

/-- Input for the C4 witness: a response carrying both a native `id` and a
`user_id`. -/
def json4 : JSValue := .obj [("user_id", .str "u1"), ("id", .str "native")]

/-- Raw body for the C4 witness. -/
def body4 : String := "\x7b\"user_id\": \"u1\", \"id\": \"native\"\x7d"

/-- A stand-in for `JSON.parse` defined at the C4 witness input. -/
def parse4 (s : String) : Option JSValue :=
  if s = body4 then some json4 else none

/-- Witness for C4: on a response with `user_id = "u1"` and a native
`id = "native"`, the profile id is `"u1"`, not `"native"`. -/
theorem userProfile_id_from_user_id_witness :
    userProfile parse4 .undef body4
      = .ok (normalizeProfile body4 (.obj [("user_id", .str "u1"), ("id", .str "native")]))
    ∧ (normalizeProfile body4 (.obj [("user_id", .str "u1"), ("id", .str "native")])).id
        = .str "u1"
    ∧ (normalizeProfile body4 (.obj [("user_id", .str "u1"), ("id", .str "native")]))._json.jsGet "id"
        = .str "u1"
    ∧ (normalizeProfile body4 (.obj [("user_id", .str "u1"), ("id", .str "native")])).id
        ≠ .str "native" := by
  obtain ⟨h1, h2, h3, h4⟩ :=
    userProfile_id_from_user_id parse4 body4
      [("user_id", .str "u1"), ("id", .str "native")] rfl
  exact ⟨h1, h2, h3, h4 (by simp [JSValue.jsGet, JSValue.lookupField])⟩

/-- C10. When the parsed object response has no `user_id` binding at all,
the unconditional overwrite `json['id'] = json.user_id` stores `undefined`,
so the profile's `id` and the mutated `_json`'s `id` are `undefined` — the
native `id` value (which `fields` may well contain) is never used. -/
theorem userProfile_id_undef_without_user_id
    (parse : String → Option JSValue) (body : String)
    (fields : List (String × JSValue))
    (hp : parse body = some (.obj fields))
    (hno : JSValue.lookupField fields "user_id" = none) :
    userProfile parse .undef body = .ok (normalizeProfile body (.obj fields))
    ∧ (normalizeProfile body (.obj fields)).id = .undef
    ∧ (normalizeProfile body (.obj fields))._json.jsGet "id" = .undef := by
  refine ⟨?_, ?_, ?_⟩
  · unfold userProfile
    rw [hp]
    rfl
  · simp [normalizeProfile, JSValue.jsGet_jsSet_self,
          JSValue.jsGet_of_lookupField_none _ _ hno]
  · simp [normalizeProfile, JSValue.jsGet_jsSet_self,
          JSValue.jsGet_of_lookupField_none _ _ hno]

/-- Raw body for the C10 witness. -/
def body10 : String := "\x7b\"id\": \"native999\", \"email\": \"e@x\"\x7d"

/-- Input for the C10 witness: a native `id` but no `user_id`. -/
def json10 : JSValue := .obj [("id", .str "native999"), ("email", .str "e@x")]

/-- A stand-in for `JSON.parse` defined at the C10 witness input. -/
def parse10 (s : String) : Option JSValue :=
  if s = body10 then some json10 else none

/-- Witness for C10: a response with only a native `id` still gets
`id = undefined` in the normalized profile. -/
theorem userProfile_id_undef_without_user_id_witness :
    userProfile parse10 .undef body10
      = .ok (normalizeProfile body10 (.obj [("id", .str "native999"), ("email", .str "e@x")]))
    ∧ (normalizeProfile body10 (.obj [("id", .str "native999"), ("email", .str "e@x")])).id
        = .undef
    ∧ (normalizeProfile body10 (.obj [("id", .str "native999"), ("email", .str "e@x")]))._json.jsGet "id"
        = .undef :=
  userProfile_id_undef_without_user_id parse10 body10
    [("id", .str "native999"), ("email", .str "e@x")] rfl rfl

/-- Raw body of the C7 scenario. -/
def body7 : String :=
  "\x7b\"user_id\": \"123\", \"name\": \"Jane Doe\", \"email\": \"jane@example.com\"\x7d"

/-- Parsed form of `body7`. -/
def json7 : JSValue :=
  .obj [("user_id", .str "123"), ("name", .str "Jane Doe"),
        ("email", .str "jane@example.com")]

/-- C7. On the response `{"user_id": "123", "name": "Jane Doe",
"email": "jane@example.com"}`, normalization yields exactly the profile
from the spec: `provider = "amazon"`, `id = "123"`,
`displayName = "Jane Doe"`, empty `name` parts, a single email and no
photos; `_raw` is the original body and `_json` the parsed object (after
the in-place `id` overwrite the code performs on it). -/
theorem userProfile_concrete_normalization (parse : String → Option JSValue)
    (hp : parse body7 = some json7) :
    userProfile parse .undef body7 = .ok
      { provider := .str "amazon"
        id := .str "123"
        displayName := .str "Jane Doe"
        name := { familyName := .str "", givenName := .str "" }
        emails := .arr [.obj [("value", .str "jane@example.com")]]
        photos := .arr []
        _raw := body7
        _json := .obj [("user_id", .str "123"), ("name", .str "Jane Doe"),
                       ("email", .str "jane@example.com"), ("id", .str "123")] } := by
  unfold userProfile
  rw [hp]
  rfl

/-- A stand-in for `JSON.parse` defined at the C7 input. -/
def parse7 (s : String) : Option JSValue :=
  if s = body7 then some json7 else none

/-- Witness for C7: the concrete normalization, evaluated. -/
theorem userProfile_concrete_normalization_witness :
    userProfile parse7 .undef body7 = .ok
      { provider := .str "amazon"
        id := .str "123"
        displayName := .str "Jane Doe"
        name := { familyName := .str "", givenName := .str "" }
        emails := .arr [.obj [("value", .str "jane@example.com")]]
        photos := .arr []
        _raw := body7
        _json := .obj [("user_id", .str "123"), ("name", .str "Jane Doe"),
                       ("email", .str "jane@example.com"), ("id", .str "123")] } :=
  userProfile_concrete_normalization parse7 rfl

/-- C5 (amended). Transport-failure classification: the error branch of
`userProfile` always surfaces an `InternalOAuthError` (never a raw parse
exception); if `JSON.parse` fails on the (stringified) error payload the
error is the generic wrapper around the original transport error; if it
succeeds with a non-nullish value the error carries that value's
`error_description` and `error` fields; if it succeeds with `null`, the
subsequent property access throws inside the `try`, so the generic wrapper
is surfaced as well.  In all tiers, `authenticate` reports the classified
error through the `error` outcome channel. -/
theorem userProfile_error_classification
    (parse : String → Option JSValue) (e : JSValue) (body : String)
    (he : e.truthy = true) :
    (∃ m w, userProfile parse e body = .err (InternalOAuthError m w))
    ∧ (parse (jsToString (e.jsGet "data")) = none →
        userProfile parse e body
          = .err (InternalOAuthError (.str "Failed to fetch user profile") e))
    ∧ (∀ j, parse (jsToString (e.jsGet "data")) = some j → j.isNullish = false →
        userProfile parse e body
          = .err (InternalOAuthError (j.jsGet "error_description") (j.jsGet "error")))
    ∧ (∀ j, parse (jsToString (e.jsGet "data")) = some j → j.isNullish = true →
        userProfile parse e body
          = .err (InternalOAuthError (.str "Failed to fetch user profile") e))
    ∧ (∀ err, userProfile parse e body = .err err →
        ∀ (verify : Option Request → JSValue → JSValue → Profile →
              JSValue × JSValue × JSValue)
          (passReqToCallback : Bool) (req : Request),
          (tokenFromReq req "access_token").truthy = true →
          authenticate (fun _ => userProfile parse e body)
              verify passReqToCallback req
            = [.fetchProfile (tokenFromReq req "access_token"), .error err]) := by
  have hred : userProfile parse e body
      = match parse (jsToString (e.jsGet "data")) with
        | none => .err (InternalOAuthError (.str "Failed to fetch user profile") e)
        | some errorJSON =>
          if errorJSON.isNullish then
            .err (InternalOAuthError (.str "Failed to fetch user profile") e)
          else
            .err (InternalOAuthError (errorJSON.jsGet "error_description")
                                     (errorJSON.jsGet "error")) := by
    unfold userProfile
    rw [if_pos he]
  refine ⟨?_, ?_, ?_, ?_, ?_⟩
  · cases hp : parse (jsToString (e.jsGet "data")) with
    | none => exact ⟨_, _, by rw [hred, hp]⟩
    | some j =>
      by_cases hn : j.isNullish
      · exact ⟨.str "Failed to fetch user profile", e, by rw [hred, hp]; simp [hn]⟩
      · exact ⟨j.jsGet "error_description", j.jsGet "error",
          by rw [hred, hp]; simp [hn]⟩
  · intro hp
    rw [hred, hp]
  · intro j hp hn
    rw [hred, hp]
    simp [hn]
  · intro j hp hn
    rw [hred, hp]
    simp [hn]
  · intro err herr verify passReqToCallback req htok
    unfold authenticate
    simp only [htok, Bool.not_true, Bool.false_eq_true, if_false]
    rw [herr]

/-- Transport error object of the C5 counterexample: its payload is the
string `"null"`, which `JSON.parse` maps to `null`. -/
def dataNullErr : JSValue := .obj [("data", .str "null")]

/-- A stand-in for `JSON.parse` defined at the C5 counterexample input:
`JSON.parse("null")` succeeds and yields `null`. -/
def parseNullLit (s : String) : Option JSValue :=
  if s = "null" then some .null else none

/-- Counterexample to C5 as stated: the payload `"null"` parses as JSON,
yet the surfaced error is the generic wrapper, not a structured error
carrying the (nonexistent) `error_description` and `error` fields of the
parsed payload. -/
theorem userProfile_error_null_payload_counterexample :
    userProfile parseNullLit dataNullErr ""
      = .err (InternalOAuthError (.str "Failed to fetch user profile") dataNullErr)
    ∧ userProfile parseNullLit dataNullErr ""
        ≠ .err (InternalOAuthError (JSValue.null.jsGet "error_description")
                                   (JSValue.null.jsGet "error")) := by
  refine ⟨rfl, ?_⟩
  intro h
  rw [show userProfile parseNullLit dataNullErr ""
        = .err (InternalOAuthError (.str "Failed to fetch user profile") dataNullErr)
      from rfl] at h
  simp [InternalOAuthError, dataNullErr, JSValue.jsGet, JSValue.lookupField] at h

/-- Transport error object for the C5 witness, carrying the structured
payload from the spec's example. -/
def structuredErr : JSValue :=
  .obj [("data", .str "\x7b\"error\": \"invalid_token\", \"error_description\": \"token expired\"\x7d")]

/-- Parsed form of the structured error payload. -/
def structuredPayload : JSValue :=
  .obj [("error", .str "invalid_token"), ("error_description", .str "token expired")]

/-- A stand-in for `JSON.parse` defined at the C5 witness input. -/
def parse5 (s : String) : Option JSValue :=
  if s = "\x7b\"error\": \"invalid_token\", \"error_description\": \"token expired\"\x7d" then
    some structuredPayload
  else none

/-- Witness for C5 (amended): a transport error whose payload parses as
`{"error": "invalid_token", "error_description": "token expired"}` is
surfaced as a structured error carrying both fields, and `authenticate`
reports it through the `error` channel. -/
theorem userProfile_error_classification_witness :
    userProfile parse5 structuredErr ""
      = .err (InternalOAuthError (.str "token expired") (.str "invalid_token"))
    ∧ authenticate (fun _ => userProfile parse5 structuredErr "")
        (fun _ _ _ _ => (.undef, .undef, .undef)) false
        ⟨.obj [("access_token", .str "tok")], .undef, .undef⟩
        = [.fetchProfile (.str "tok"),
           .error (InternalOAuthError (.str "token expired") (.str "invalid_token"))] := by
  have h := userProfile_error_classification parse5 structuredErr "" rfl
  refine ⟨h.2.2.1 structuredPayload rfl rfl, ?_⟩
  have hch := h.2.2.2.2
      (InternalOAuthError (.str "token expired") (.str "invalid_token"))
      (h.2.2.1 structuredPayload rfl rfl)
      (fun _ _ _ _ => (.undef, .undef, .undef)) false
      ⟨.obj [("access_token", .str "tok")], .undef, .undef⟩ rfl
  exact hch

/-- Raw body of the C8 inputs: a response without `email`, `emails`,
`name` or `image`. -/
def body8 : String := "\x7b\"user_id\": \"1\"\x7d"

/-- Parsed form of `body8`. -/
def json8 : JSValue := .obj [("user_id", .str "1")]

/-- A stand-in for `JSON.parse` defined at the C8 input. -/
def parse8 (s : String) : Option JSValue :=
  if s = body8 then some json8 else none

/-- Counterexample to C8 as stated: in `src/lib/Strategy.js`, a response
with no `email` field normalizes to an `emails` collection that is NOT
empty — it is the one-element collection `[{value: undefined}]`, so a
position of the profile does contain `undefined`. -/
theorem userProfile_missing_email_counterexample :
    userProfile parse8 .undef body8 = .ok (normalizeProfile body8 json8)
    ∧ (normalizeProfile body8 json8).emails = .arr [.obj [("value", .undef)]]
    ∧ (normalizeProfile body8 json8).emails ≠ .arr [] := by
  refine ⟨rfl, rfl, ?_⟩
  intro h
  rw [show (normalizeProfile body8 json8).emails
        = .arr [.obj [("value", .undef)]] from rfl] at h
  simp at h

/-- C8 (amended). Defaulting of absent fields, per version.  Current
version (`src/lib/Strategy.js`): `photos` is always the empty collection,
but a missing `email` yields the one-element `emails` collection
`[{value: undefined}]` (not an empty collection).  Legacy version
(`src/unnamed/part_000`): a missing `emails` field defaults to the empty
collection and a missing `name` to empty strings — never null — but a
missing `image` yields the one-element `photos` collection
`[{value: ""}]` (not an empty collection). -/
theorem userProfile_absent_field_defaults
    (parse : String → Option JSValue) (body : String)
    (fields : List (String × JSValue))
    (hp : parse body = some (.obj fields)) :
    (userProfile parse .undef body = .ok (normalizeProfile body (.obj fields))
      ∧ (normalizeProfile body (.obj fields)).photos = .arr []
      ∧ (JSValue.lookupField fields "email" = none →
          (normalizeProfile body (.obj fields)).emails
            = .arr [.obj [("value", .undef)]]))
    ∧
    (userProfile000 parse .undef body = .ok (normalizeProfile000 body (.obj fields))
      ∧ (JSValue.lookupField fields "emails" = none →
          (normalizeProfile000 body (.obj fields)).emails = .arr [])
      ∧ (JSValue.lookupField fields "name" = none →
          (normalizeProfile000 body (.obj fields)).name.familyName = .str ""
          ∧ (normalizeProfile000 body (.obj fields)).name.givenName = .str "")
      ∧ (JSValue.lookupField fields "image" = none →
          (normalizeProfile000 body (.obj fields)).photos
            = .arr [.obj [("value", .str "")]])) := by
  have hmail := JSValue.jsGet_jsSet_ne fields "id" "email"
      ((JSValue.obj fields).jsGet "user_id") (by decide)
  refine ⟨⟨?_, ?_, ?_⟩, ?_, ?_, ?_, ?_⟩
  · unfold userProfile
    rw [hp]
    rfl
  · rfl
  · intro hm
    simp [normalizeProfile, hmail, JSValue.jsGet_of_lookupField_none _ _ hm]
  · unfold userProfile000
    rw [hp]
    rfl
  · intro hm
    simp [normalizeProfile000, JSValue.jsGet_of_lookupField_none _ _ hm,
          JSValue.jsOr, JSValue.jsAnd, JSValue.truthy]
  · intro hm
    constructor <;>
      simp [normalizeProfile000, JSValue.jsGet_of_lookupField_none _ _ hm,
            JSValue.jsOr, JSValue.jsAnd, JSValue.truthy]
  · intro hm
    simp [normalizeProfile000, JSValue.jsGet_of_lookupField_none _ _ hm,
          JSValue.jsOr, JSValue.jsAnd, JSValue.truthy]

/-- Witness for C8 (amended): evaluation of both versions on the response
`{"user_id": "1"}`, which lacks `email`, `emails`, `name` and `image`. -/
theorem userProfile_absent_field_defaults_witness :
    (normalizeProfile body8 json8).photos = .arr []
    ∧ (normalizeProfile body8 json8).emails = .arr [.obj [("value", .undef)]]
    ∧ (normalizeProfile000 body8 json8).emails = .arr []
    ∧ (normalizeProfile000 body8 json8).name.familyName = .str ""
    ∧ (normalizeProfile000 body8 json8).photos = .arr [.obj [("value", .str "")]] := by
  have h := userProfile_absent_field_defaults parse8 body8 [("user_id", .str "1")] rfl
  exact ⟨h.1.2.1, h.1.2.2 rfl, h.2.2.1 rfl, (h.2.2.2.1 rfl).1, h.2.2.2.2 rfl⟩

/-- Raw body of the C9 probe input. -/
def body9 : String := "<legacy-vs-current-probe>"

/-- Parsed C9 probe: a response carrying every field either version
looks at, with distinct values. -/
def json9 : JSValue :=
  .obj [("user_id", .str "123"), ("id", .str "legacy-id"),
        ("name", .obj [("familyName", .str "Doe"), ("givenName", .str "Jane")]),
        ("emails", .arr [.obj [("value", .str "jane@example.com")]]),
        ("image", .obj [("url", .str "http://img.example/jane.png")])]

/-- A stand-in for `JSON.parse` defined at the C9 probe input. -/
def parse9 (s : String) : Option JSValue :=
  if s = body9 then some json9 else none

/-- Projection from a `done` result to its profile, with a default for the
error case. -/
def DoneResult.profileD (r : DoneResult) (d : Profile) : Profile :=
  match r with
  | .ok p => p
  | .err _ => d

/-- All-`undefined` profile, used only as the default of `profileD`. -/
def emptyProfile : Profile :=
  { provider := .undef, id := .undef, displayName := .undef,
    name := { familyName := .undef, givenName := .undef },
    emails := .undef, photos := .undef, _raw := "", _json := .undef }

/-- C9. The two source versions of profile normalization are not
extensionally equal: on the probe response they produce different
profiles, differing in `id` (overwritten from `user_id` vs native `id`),
`displayName`, `name.familyName`, `emails` and `photos`. -/
theorem userProfile_versions_differ :
    userProfile parse9 .undef body9 ≠ userProfile000 parse9 .undef body9
    ∧ ((userProfile parse9 .undef body9).profileD emptyProfile).id
        ≠ ((userProfile000 parse9 .undef body9).profileD emptyProfile).id
    ∧ ((userProfile parse9 .undef body9).profileD emptyProfile).displayName
        ≠ ((userProfile000 parse9 .undef body9).profileD emptyProfile).displayName
    ∧ ((userProfile parse9 .undef body9).profileD emptyProfile).name.familyName
        ≠ ((userProfile000 parse9 .undef body9).profileD emptyProfile).name.familyName
    ∧ ((userProfile parse9 .undef body9).profileD emptyProfile).emails
        ≠ ((userProfile000 parse9 .undef body9).profileD emptyProfile).emails
    ∧ ((userProfile parse9 .undef body9).profileD emptyProfile).photos
        ≠ ((userProfile000 parse9 .undef body9).profileD emptyProfile).photos := by
  have e1 : userProfile parse9 .undef body9 = .ok
      { provider := .str "amazon"
        id := .str "123"
        displayName := .obj [("familyName", .str "Doe"), ("givenName", .str "Jane")]
        name := { familyName := .str "", givenName := .str "" }
        emails := .arr [.obj [("value", .undef)]]
        photos := .arr []
        _raw := body9
        _json := .obj [("user_id", .str "123"), ("id", .str "123"),
                       ("name", .obj [("familyName", .str "Doe"), ("givenName", .str "Jane")]),
                       ("emails", .arr [.obj [("value", .str "jane@example.com")]]),
                       ("image", .obj [("url", .str "http://img.example/jane.png")])] } := rfl
  have e2 : userProfile000 parse9 .undef body9 = .ok
      { provider := .str "amazon"
        id := .str "legacy-id"
        displayName := .str ""
        name := { familyName := .str "Doe", givenName := .str "Jane" }
        emails := .arr [.obj [("value", .str "jane@example.com")]]
        photos := .arr [.obj [("value", .str "http://img.example/jane.png")]]
        _raw := body9
        _json := json9 } := rfl
  refine ⟨?_, ?_, ?_, ?_, ?_, ?_⟩ <;>
    simp [e1, e2, DoneResult.profileD]
theorem authenticate_missing_token_witness :
    authenticate (fun _ => .err .undef) (fun _ _ _ _ => (.undef, .undef, .undef)) true
        ⟨.undef, .obj [("refresh_token", .str "r")], .obj []⟩
      = [.fail (.obj [("message", .str "You should provide access_token")])] :=
  authenticate_missing_token ⟨.undef, .obj [("refresh_token", .str "r")], .obj []⟩
    rfl rfl rfl (fun _ => .err .undef) (fun _ _ _ _ => (.undef, .undef, .undef)) true
